import Mathlib

/-!
Verification of the Infinite-Runner game (src/script.js).

The JavaScript source is shallowly embedded: classes become structures,
methods become pure functions returning updated structures, JS numbers are
modelled as exact rationals (ℚ), and every call to Math.random() becomes an
explicit parameter of the embedded function (a rational in [0,1), or a
natural-number index for the template pick Math.floor(Math.random()*n)).
-/

/-- The mutable global CONFIG's canvas dimensions; they come from
`window.innerWidth` / `window.innerHeight`, so they are parameters here. -/
structure Config where
  CANVAS_WIDTH : ℚ
  CANVAS_HEIGHT : ℚ
  deriving DecidableEq

/-- CONFIG.GRAVITY -/
def GRAVITY : ℚ := 0.8

/-- CONFIG.JUMP_FORCE -/
def JUMP_FORCE : ℚ := -15

/-- CONFIG.GROUND_HEIGHT -/
def GROUND_HEIGHT : ℚ := 100

/-- CONFIG.PLAYER_SIZE -/
def PLAYER_SIZE : ℚ := 40

/-- The liveness string returned by Player.update: the orchestrator compares
it against 'death'. -/
inductive Signal where
  | alive
  | death
  deriving DecidableEq

/-- A JS `{x, y}` pair used for velocities and offsets. -/
structure Vec2 where
  x : ℚ
  y : ℚ
  deriving DecidableEq

/-- Fields of a Particle instance. -/
structure Particle where
  x : ℚ
  y : ℚ
  color : String
  velocity : Vec2
  life : ℚ
  decay : ℚ
  size : ℚ
  deriving DecidableEq

/-- Particle constructor.  The optional `velocity` argument models the JS
`velocity || {random default}` pattern; `randVx`, `randVy` and `sizeRand`
stand for the Math.random() draws. -/
def Particle.make (x y : ℚ) (color : String) (velocity : Option Vec2)
    (randVx randVy sizeRand : ℚ) : Particle :=
  { x := x, y := y, color := color,
    velocity := velocity.getD { x := (randVx - 0.5) * 10, y := (randVy - 0.5) * 10 },
    life := 1.0, decay := 0.02, size := sizeRand * 4 + 2 }

/-- Particle.update(). -/
def Particle.update (p : Particle) : Particle :=
  { p with
    x := p.x + p.velocity.x,
    y := p.y + p.velocity.y,
    velocity := { p.velocity with y := p.velocity.y + 0.2 },
    life := p.life - p.decay,
    size := p.size * 0.98 }

/-- Particle.isDead(). -/
def Particle.isDead (p : Particle) : Bool :=
  p.life ≤ 0

/-- One `{x, y, life}` sample stored by a Trail. -/
structure TrailPoint where
  x : ℚ
  y : ℚ
  life : ℚ
  deriving DecidableEq

/-- Fields of a Trail instance. -/
structure Trail where
  points : List TrailPoint
  maxPoints : Nat
  deriving DecidableEq

/-- Trail constructor. -/
def Trail.init : Trail :=
  { points := [], maxPoints := 20 }

/-- Trail.addPoint(x, y): push a full-life sample, then shift (drop the
oldest, i.e. the head) if the length exceeds maxPoints. -/
def Trail.addPoint (t : Trail) (x y : ℚ) : Trail :=
  let pts := t.points ++ [{ x := x, y := y, life := 1.0 }]
  { t with points := if pts.length > t.maxPoints then pts.tail else pts }

/-- Trail.update(): decay every sample's life by 0.05, then keep only the
samples with positive life. -/
def Trail.update (t : Trail) : Trail :=
  let decayed := t.points.map fun p => { p with life := p.life - 0.05 }
  { t with points := decayed.filter fun p => p.life > 0 }

/-- Fields of the Player instance. -/
structure Player where
  x : ℚ
  y : ℚ
  width : ℚ
  height : ℚ
  velocityY : ℚ
  onGround : Bool
  rotation : ℚ
  color : String
  trail : Trail
  deriving DecidableEq

/-- Player.reset().  Note that it sets `onGround := false` and leaves the
trail untouched. -/
def Player.reset (cfg : Config) (p : Player) : Player :=
  { p with
    x := 100,
    y := cfg.CANVAS_HEIGHT - GROUND_HEIGHT - PLAYER_SIZE,
    width := PLAYER_SIZE,
    height := PLAYER_SIZE,
    velocityY := 0,
    onGround := false,
    rotation := 0,
    color := "#00ffff" }

/-- Player constructor: reset, then a fresh Trail. -/
def Player.init (cfg : Config) : Player :=
  Player.reset cfg
    { x := 0, y := 0, width := 0, height := 0, velocityY := 0,
      onGround := false, rotation := 0, color := "", trail := Trail.init }

/-- Player.jump(): only acts when onGround is set. -/
def Player.jump (p : Player) : Player :=
  if p.onGround then { p with velocityY := JUMP_FORCE, onGround := false } else p

/-- Player.update(): gravity, integration, ground clamp, ceiling clamp,
trail bookkeeping; returns the state paired with the 'alive' signal. -/
def Player.update (cfg : Config) (p : Player) : Player × Signal :=
  let v0 := p.velocityY + GRAVITY
  let y0 := p.y + v0
  let groundY := cfg.CANVAS_HEIGHT - GROUND_HEIGHT
  let q :=
    if y0 + p.height ≥ groundY then
      { p with y := groundY - p.height, velocityY := 0, onGround := true, rotation := 0 }
    else
      { p with y := y0, velocityY := v0, onGround := false, rotation := p.rotation + 0.15 }
  let q2 := if q.y ≤ 0 then { q with y := 0, velocityY := 0 } else q
  let q3 :=
    { q2 with trail :=
        (q2.trail.addPoint (q2.x + q2.width / 2) (q2.y + q2.height / 2)).update }
  (q3, Signal.alive)

/-- The player-state part of Player.update, used for iterating ticks. -/
def playerStep (cfg : Config) (p : Player) : Player :=
  (Player.update cfg p).1

/-- An `{x, y, width, height}` rectangle as returned by getBounds. -/
structure Bounds where
  x : ℚ
  y : ℚ
  width : ℚ
  height : ℚ
  deriving DecidableEq

/-- Player.getBounds(): the drawn square inset by 2 units per side. -/
def Player.getBounds (p : Player) : Bounds :=
  { x := p.x + 2, y := p.y + 2, width := p.width - 4, height := p.height - 4 }

/-- Fields of the Camera instance. -/
structure Camera where
  x : ℚ
  shake : ℚ
  shakeDecay : ℚ
  deriving DecidableEq

/-- Camera constructor. -/
def Camera.init : Camera :=
  { x := 0, shake := 0, shakeDecay := 0.9 }

/-- Camera.update(). -/
def Camera.update (c : Camera) : Camera :=
  if c.shake > 0 then { c with shake := c.shake * c.shakeDecay } else c

/-- Camera.addShake(intensity). -/
def Camera.addShake (c : Camera) (intensity : ℚ) : Camera :=
  { c with shake := max c.shake intensity }

/-- One entry of the obstacleTypes catalog. -/
structure ObstacleTemplate where
  type : String
  width : ℚ
  height : ℚ
  color : String
  ground : Bool
  glow : Bool
  filled : Bool
  deriving DecidableEq

/-- The fixed thirteen-entry obstacleTypes catalog. -/
def obstacleTypes : List ObstacleTemplate :=
  [{ type := "spike", width := 40, height := 60, color := "#02ff70ff", ground := true, glow := true, filled := false },
   { type := "cube", width := 50, height := 50, color := "#8844ff", ground := true, glow := false, filled := true },
   { type := "cube", width := 50, height := 50, color := "#4488ff", ground := true, glow := false, filled := false },
   { type := "orb", width := 35, height := 35, color := "#ffff00", ground := true, glow := true, filled := false },
   { type := "robot", width := 45, height := 55, color := "#00ff88", ground := true, glow := false, filled := false },
   { type := "ship", width := 60, height := 35, color := "#ff8800", ground := true, glow := false, filled := false },
   { type := "ball", width := 40, height := 40, color := "#ff44ff", ground := true, glow := false, filled := false },
   { type := "wave", width := 55, height := 30, color := "#44ffff", ground := true, glow := false, filled := false },
   { type := "spider", width := 50, height := 40, color := "#ff4444", ground := true, glow := false, filled := false },
   { type := "swing", width := 45, height := 50, color := "#88ff44", ground := true, glow := false, filled := false },
   { type := "ufo", width := 60, height := 25, color := "#aaaaaa", ground := false, glow := false, filled := false },
   { type := "star", width := 30, height := 30, color := "#ffff00", ground := false, glow := true, filled := false },
   { type := "star", width := 20, height := 20, color := "#ffff88", ground := false, glow := true, filled := false }]

/-- An active obstacle. -/
structure Obstacle where
  x : ℚ
  y : ℚ
  width : ℚ
  height : ℚ
  type : String
  color : String
  isAir : Bool
  deriving DecidableEq

/-- Fields of the ObstacleGenerator instance. -/
structure ObstacleGenerator where
  obstacles : List Obstacle
  nextObstacleX : ℚ
  deriving DecidableEq

/-- ObstacleGenerator constructor. -/
def ObstacleGenerator.init (cfg : Config) : ObstacleGenerator :=
  { obstacles := [], nextObstacleX := cfg.CANVAS_WIDTH }

/-- The random draws consumed by one generateObstacle call: `gap` and `airY`
model Math.random() outputs in [0,1); `tIdx` models the already-floored
template index Math.floor(Math.random() * obstacleTypes.length). -/
structure SpawnRand where
  gap : ℚ
  tIdx : Nat
  airY : ℚ

/-- ObstacleGenerator.generateObstacle(gameSpeed, distance) (both arguments
are unused by the body, as in the source). -/
def ObstacleGenerator.generateObstacle (cfg : Config) (r : SpawnRand)
    (g : ObstacleGenerator) : ObstacleGenerator :=
  let minDistance : ℚ := 300
  let maxDistance : ℚ := 500
  let distanceFromLast := minDistance + r.gap * (maxDistance - minDistance)
  let nextX :=
    match g.obstacles.getLast? with
    | some last => last.x + distanceFromLast
    | none => cfg.CANVAS_WIDTH + 200
  let tmpl := obstacleTypes.getD r.tIdx
    { type := "spike", width := 40, height := 60, color := "#02ff70ff",
      ground := true, glow := true, filled := false }
  let obstacleY :=
    if tmpl.ground then cfg.CANVAS_HEIGHT - GROUND_HEIGHT - tmpl.height
    else 50 + r.airY * 150
  { obstacles := g.obstacles ++
      [{ x := nextX, y := obstacleY, width := tmpl.width, height := tmpl.height,
         type := tmpl.type, color := tmpl.color, isAir := !tmpl.ground }],
    nextObstacleX := nextX }

/-- ObstacleGenerator.update(gameSpeed, distance): scroll, cull, and spawn
when the set is empty or the last obstacle is inside the visible width. -/
def ObstacleGenerator.update (cfg : Config) (gameSpeed : ℚ) (r : SpawnRand)
    (g : ObstacleGenerator) : ObstacleGenerator :=
  let moved := g.obstacles.map fun o => { o with x := o.x - gameSpeed }
  let kept := moved.filter fun o => o.x + o.width > -100
  let g1 : ObstacleGenerator := { g with obstacles := kept }
  match kept.getLast? with
  | none => ObstacleGenerator.generateObstacle cfg r g1
  | some last =>
    if last.x < cfg.CANVAS_WIDTH then ObstacleGenerator.generateObstacle cfg r g1
    else g1

/-- ObstacleGenerator.checkCollision(player). -/
def ObstacleGenerator.checkCollision (g : ObstacleGenerator) (p : Player) : Bool :=
  let pb := p.getBounds
  g.obstacles.any fun o =>
    decide (o.x < pb.x + pb.width) && decide (o.x + o.width > pb.x) &&
    decide (o.y < pb.y + pb.height) && decide (o.y + o.height > pb.y)

/-- ObstacleGenerator.reset(). -/
def ObstacleGenerator.reset (cfg : Config) (g : ObstacleGenerator) : ObstacleGenerator :=
  { g with obstacles := [], nextObstacleX := cfg.CANVAS_WIDTH }

/-- The GAME_STATES enumeration. -/
inductive GState where
  | menu
  | playing
  | paused
  | gameOver
  deriving DecidableEq

/-- Fields of the Game orchestrator (DOM/canvas handles and UI wiring are
external and omitted). -/
structure Game where
  state : GState
  score : ℤ
  highScore : ℤ
  highDistance : ℤ
  gameSpeed : ℚ
  distance : ℚ
  player : Player
  camera : Camera
  obstacleGenerator : ObstacleGenerator
  particles : List Particle
  backgroundOffset : ℚ

/-- Game constructor state (highScore/highDistance come from localStorage). -/
def Game.init (cfg : Config) (hs hd : ℤ) : Game :=
  { state := GState.menu, score := 0, highScore := hs, highDistance := hd,
    gameSpeed := 5, distance := 0, player := Player.init cfg,
    camera := Camera.init, obstacleGenerator := ObstacleGenerator.init cfg,
    particles := [], backgroundOffset := 0 }

/-- The random draws of the fifty-particle explosion burst in gameOver:
per-particle velocity components and size, each modelling Math.random(). -/
structure BurstRand where
  vx : Nat → ℚ
  vy : Nat → ℚ
  size : Nat → ℚ

/-- Game.gameOver() (DOM animation and UI text updates are external). -/
def Game.gameOver (g : Game) (br : BurstRand) : Game :=
  let hs := if g.score > g.highScore then g.score else g.highScore
  let hd := if g.distance > (g.highDistance : ℚ) then ⌊g.distance⌋ else g.highDistance
  let burst := (List.range 50).map fun i =>
    Particle.make (g.player.x + g.player.width / 2) (g.player.y + g.player.height / 2)
      "#ff3333" (some { x := (br.vx i - 0.5) * 20, y := (br.vy i - 0.5) * 20 }) 0 0 (br.size i)
  { g with
    state := GState.gameOver, camera := g.camera.addShake 20,
    highScore := hs, highDistance := hd, particles := g.particles ++ burst }

/-- All random draws consumed by one Game.update step. -/
structure GameRand where
  spawn : SpawnRand
  burst : BurstRand

/-- Game.update(): the per-frame simulation step (UI text updates omitted). -/
def Game.update (cfg : Config) (r : GameRand) (g : Game) : Game :=
  if g.state ≠ GState.playing then g
  else
    let pu := Player.update cfg g.player
    if pu.2 = Signal.death then Game.gameOver { g with player := pu.1 } r.burst
    else
      let d1 := g.distance + g.gameSpeed * 0.1
      let gs1 := min (5 + d1 / 500) 10
      let bo1 := g.backgroundOffset + gs1 * 0.3
      let sc1 := ⌊d1 / 10⌋
      let cam1 := g.camera.update
      let og1 := ObstacleGenerator.update cfg gs1 r.spawn g.obstacleGenerator
      let g1 : Game :=
        { g with
          player := pu.1, distance := d1, gameSpeed := gs1,
          backgroundOffset := bo1, score := sc1, camera := cam1,
          obstacleGenerator := og1 }
      if og1.checkCollision pu.1 then Game.gameOver g1 r.burst
      else { g1 with particles := (g1.particles.map Particle.update).filter fun p => !p.isDead }

/-- Game.startGame(). -/
def Game.startGame (cfg : Config) (g : Game) : Game :=
  { g with
    state := GState.playing, score := 0, distance := 0, gameSpeed := 5,
    player := g.player.reset cfg, camera := Camera.init,
    obstacleGenerator := g.obstacleGenerator.reset cfg, particles := [] }

/-- Game.pauseGame(). -/
def Game.pauseGame (g : Game) : Game :=
  if g.state = GState.playing then { g with state := GState.paused } else g

/-- Game.resumeGame(). -/
def Game.resumeGame (g : Game) : Game :=
  if g.state = GState.paused then { g with state := GState.playing } else g

/-- Game.showMenu(). -/
def Game.showMenu (g : Game) : Game :=
  { g with state := GState.menu }

/-- The jump input path: the key/pointer handlers call player.jump() while
the state is playing. -/
def Game.pressJump (g : Game) : Game :=
  if g.state = GState.playing then { g with player := g.player.jump } else g

/-- The orchestrator states reachable from the constructor through frame
updates and the input-handler commands. -/
inductive Reachable (cfg : Config) : Game → Prop where
  | init (hs hd : ℤ) : Reachable cfg (Game.init cfg hs hd)
  | step_update {g : Game} (r : GameRand) :
      Reachable cfg g → Reachable cfg (Game.update cfg r g)
  | step_start {g : Game} :
      Reachable cfg g → Reachable cfg (Game.startGame cfg g)
  | step_pause {g : Game} :
      Reachable cfg g → Reachable cfg (Game.pauseGame g)
  | step_resume {g : Game} :
      Reachable cfg g → Reachable cfg (Game.resumeGame g)
  | step_menu {g : Game} :
      Reachable cfg g → Reachable cfg (Game.showMenu g)
  | step_jump {g : Game} :
      Reachable cfg g → Reachable cfg (Game.pressJump g)

/-! ## Collision detection (C2) -/

/-- Modelled from the spec: two axis-aligned boxes overlap iff each box's
start is strictly before the other's end on both axes. -/
def boundsOverlap (a b : Bounds) : Prop :=
  a.x < b.x + b.width ∧ b.x < a.x + a.width ∧ a.y < b.y + b.height ∧ b.y < a.y + a.height

/-- The full bounds rectangle of an active obstacle (no inset). -/
def Obstacle.bounds (o : Obstacle) : Bounds :=
  { x := o.x, y := o.y, width := o.width, height := o.height }

/-- C2: checkCollision(player) returns true if and only if some active
obstacle's full bounds rectangle overlaps the player's inset bounds
rectangle, overlap meaning each box's start is strictly before the other's
end on both axes; the result is existential over the obstacle set. -/
theorem checkCollision_iff_overlap (g : ObstacleGenerator) (p : Player) :
    g.checkCollision p = true ↔
      ∃ o ∈ g.obstacles, boundsOverlap o.bounds p.getBounds := by
  simp only [ObstacleGenerator.checkCollision, List.any_eq_true, Bool.and_eq_true,
    decide_eq_true_eq, boundsOverlap, Obstacle.bounds, Player.getBounds, gt_iff_lt]
  constructor
  · rintro ⟨o, ho, ⟨⟨h1, h2⟩, h3⟩, h4⟩
    exact ⟨o, ho, h1, h2, h3, h4⟩
  · rintro ⟨o, ho, h1, h2, h3, h4⟩
    exact ⟨o, ho, ⟨⟨h1, h2⟩, h3⟩, h4⟩

/-! ## Player.jump framing (C6) -/

/-- C6: jump() is a no-op when onGround is false (every field unchanged),
and when onGround is true it sets velocityY to the impulse, clears onGround,
and does change the state. -/
theorem jump_noop_iff_airborne (p : Player) :
    (p.onGround = false → p.jump = p) ∧
    (p.onGround = true →
      p.jump = { p with velocityY := JUMP_FORCE, onGround := false } ∧ p.jump ≠ p) := by
  refine ⟨fun h => ?_, fun h => ⟨?_, ?_⟩⟩
  · simp [Player.jump, h]
  · simp [Player.jump, h]
  · intro hEq
    have : p.jump.onGround = p.onGround := by rw [hEq]
    rw [h] at this
    simp [Player.jump, h] at this

/-- Witness for C6 at concrete grounded and airborne players. -/
theorem jump_noop_iff_airborne_witness :
    Player.jump
        { x := 0, y := 0, width := 40, height := 40, velocityY := 3, onGround := false,
          rotation := 1, color := "", trail := Trail.init } =
      { x := 0, y := 0, width := 40, height := 40, velocityY := 3, onGround := false,
        rotation := 1, color := "", trail := Trail.init } ∧
    (Player.jump
        { x := 0, y := 0, width := 40, height := 40, velocityY := 0, onGround := true,
          rotation := 0, color := "", trail := Trail.init }).velocityY = JUMP_FORCE :=
  ⟨(jump_noop_iff_airborne _).1 rfl,
   by rw [((jump_noop_iff_airborne _).2 rfl).1]⟩

/-! ## Particle lifetime (C9) -/

/-- Particle.update leaves decay unchanged and lowers life by decay; iterated
form. -/
theorem particle_iterate_life (p : Particle) (n : ℕ) :
    (Particle.update^[n] p).life = p.life - n * p.decay := by
  have hstep : ∀ q : Particle, (Particle.update q).life = q.life - q.decay ∧
      (Particle.update q).decay = q.decay := by
    intro q
    simp [Particle.update]
  induction n with
  | zero => simp
  | succ k ih =>
    have hdec : (Particle.update^[k] p).decay = p.decay := by
      clear ih
      induction k with
      | zero => simp
      | succ m ihm => rw [Function.iterate_succ_apply', (hstep _).2, ihm]
    rw [Function.iterate_succ_apply', (hstep _).1, ih, hdec]
    push_cast
    ring

/-- C9: a Particle built by the constructor (life = 1.0, decay = 0.02) is
not dead after each of the first 49 update() calls and is dead after the
50th. -/
theorem particle_dead_after_fifty (x y : ℚ) (c : String) (v : Option Vec2)
    (rx ry sr : ℚ) :
    (∀ n : ℕ, n ≤ 49 →
      (Particle.update^[n] (Particle.make x y c v rx ry sr)).isDead = false) ∧
    (Particle.update^[50] (Particle.make x y c v rx ry sr)).isDead = true := by
  have hlife : ∀ n : ℕ,
      (Particle.update^[n] (Particle.make x y c v rx ry sr)).life = 1 - n * 0.02 := by
    intro n
    rw [particle_iterate_life]
    norm_num [Particle.make]
  constructor
  · intro n hn
    have hq : (n : ℚ) ≤ 49 := by exact_mod_cast hn
    simp only [Particle.isDead, hlife, decide_eq_false_iff_not, not_le]
    nlinarith
  · simp only [Particle.isDead, hlife, decide_eq_true_eq]
    norm_num

/-- Witness for C9 at the 49th tick of a concrete particle. -/
theorem particle_dead_after_fifty_witness :
    (Particle.update^[49] (Particle.make 0 0 "#ff3333" none 0 0 0)).isDead = false ∧
    (Particle.update^[50] (Particle.make 0 0 "#ff3333" none 0 0 0)).isDead = true :=
  ⟨(particle_dead_after_fifty 0 0 "#ff3333" none 0 0 0).1 49 (by norm_num),
   (particle_dead_after_fifty 0 0 "#ff3333" none 0 0 0).2⟩

/-! ## Player.update never signals death (C10) -/

/-- Modelled from the spec: the orchestrator step with the player-death
branch removed — death is detected solely via the generator's collision
check. -/
def Game.updateCollisionOnly (cfg : Config) (r : GameRand) (g : Game) : Game :=
  if g.state ≠ GState.playing then g
  else
    let pu := Player.update cfg g.player
    let d1 := g.distance + g.gameSpeed * 0.1
    let gs1 := min (5 + d1 / 500) 10
    let bo1 := g.backgroundOffset + gs1 * 0.3
    let sc1 := ⌊d1 / 10⌋
    let cam1 := g.camera.update
    let og1 := ObstacleGenerator.update cfg gs1 r.spawn g.obstacleGenerator
    let g1 : Game :=
      { g with
        player := pu.1, distance := d1, gameSpeed := gs1,
        backgroundOffset := bo1, score := sc1, camera := cam1,
        obstacleGenerator := og1 }
    if og1.checkCollision pu.1 then Game.gameOver g1 r.burst
    else { g1 with particles := (g1.particles.map Particle.update).filter fun p => !p.isDead }

/-- C10: Player.update always returns the 'alive' signal, so the
orchestrator's death branch is unreachable and Game.update coincides with
the step that only dies by collision. -/
theorem player_update_always_alive :
    (∀ (cfg : Config) (p : Player), (Player.update cfg p).2 = Signal.alive) ∧
    (∀ (cfg : Config) (r : GameRand) (g : Game),
      Game.update cfg r g = Game.updateCollisionOnly cfg r g) := by
  refine ⟨fun cfg p => rfl, fun cfg r g => ?_⟩
  simp only [Game.update, Game.updateCollisionOnly]
  have h : (Player.update cfg g.player).2 = Signal.alive := rfl
  rw [h]
  simp

/-! ## Trail capacity and FIFO eviction (C7) -/

/-- One operation of an arbitrary Trail call sequence. -/
inductive TrailOp where
  | add (x y : ℚ)
  | decay

/-- Apply one Trail operation. -/
def Trail.applyOp (t : Trail) : TrailOp → Trail
  | TrailOp.add x y => t.addPoint x y
  | TrailOp.decay => t.update

/-- Run a call sequence from a fresh Trail. -/
def Trail.run (ops : List TrailOp) : Trail :=
  ops.foldl Trail.applyOp Trail.init

/-- Each Trail operation preserves maxPoints and the capacity bound. -/
theorem trail_applyOp_bound (t : Trail) (op : TrailOp)
    (hm : t.maxPoints = 20) (hl : t.points.length ≤ 20) :
    (t.applyOp op).maxPoints = 20 ∧ (t.applyOp op).points.length ≤ 20 := by
  cases op with
  | add x y =>
    refine ⟨hm, ?_⟩
    simp only [Trail.applyOp, Trail.addPoint, hm]
    split
    · simp only [List.length_tail, List.length_append, List.length_cons,
        List.length_nil]
      omega
    · rename_i hcond
      simp only [gt_iff_lt, not_lt, List.length_append, List.length_cons,
        List.length_nil] at hcond ⊢
      omega
  | decay =>
    refine ⟨hm, ?_⟩
    have h := List.length_filter_le (fun p : TrailPoint => p.life > 0)
      (t.points.map fun p => { p with life := p.life - 0.05 })
    simp only [List.length_map] at h
    simp only [Trail.applyOp, Trail.update]
    exact le_trans h hl

/-- Capacity bound propagated through a whole call sequence. -/
theorem trail_fold_bound (ops : List TrailOp) (t : Trail)
    (hm : t.maxPoints = 20) (hl : t.points.length ≤ 20) :
    (ops.foldl Trail.applyOp t).maxPoints = 20 ∧
    (ops.foldl Trail.applyOp t).points.length ≤ 20 := by
  induction ops generalizing t with
  | nil => exact ⟨hm, hl⟩
  | cons op ops ih =>
    have h := trail_applyOp_bound t op hm hl
    rw [List.foldl_cons]
    exact ih _ h.1 h.2

/-- C7: over every sequence of addPoint/update calls a Trail holds at most
20 samples, and addPoint on a full Trail evicts exactly the oldest sample
(FIFO). -/
theorem trail_capacity_and_fifo :
    (∀ ops : List TrailOp, (Trail.run ops).points.length ≤ 20) ∧
    (∀ (t : Trail) (x y : ℚ), t.maxPoints = 20 → t.points.length = 20 →
      (t.addPoint x y).points = t.points.tail ++ [{ x := x, y := y, life := 1.0 }]) := by
  constructor
  · intro ops
    exact (trail_fold_bound ops Trail.init rfl (by simp [Trail.init])).2
  · intro t x y hm hl
    have hne : t.points ≠ [] := by
      intro h
      rw [h] at hl
      simp at hl
    simp only [Trail.addPoint, hm, hl]
    rw [if_pos (by simp [hl])]
    exact List.tail_append_singleton_of_ne_nil hne

/-- Witness for C7: a full 20-sample Trail evicts its head on addPoint. -/
theorem trail_capacity_and_fifo_witness :
    (Trail.addPoint
        { points := List.replicate 20 { x := 0, y := 0, life := 1.0 }, maxPoints := 20 }
        7 8).points =
      (List.replicate 20 { x := 0, y := 0, life := 1.0 : TrailPoint }).tail ++
        [{ x := 7, y := 8, life := 1.0 }] :=
  trail_capacity_and_fifo.2 _ 7 8 rfl (by simp)

/-! ## Airborne velocity is linear in tick count (C5) -/

/-- Neither the ground clamp nor the ceiling clamp fires during the next
update() of `p`. -/
def noClamp (cfg : Config) (p : Player) : Prop :=
  p.y + (p.velocityY + GRAVITY) + p.height < cfg.CANVAS_HEIGHT - GROUND_HEIGHT ∧
  0 < p.y + (p.velocityY + GRAVITY)

/-- One unclamped update(): gravity is added to the velocity, the position
integrates, the player stays airborne and keeps spinning. -/
theorem playerStep_of_noClamp (cfg : Config) (p : Player) (h : noClamp cfg p) :
    (playerStep cfg p).velocityY = p.velocityY + GRAVITY ∧
    (playerStep cfg p).y = p.y + (p.velocityY + GRAVITY) ∧
    (playerStep cfg p).onGround = false ∧
    (playerStep cfg p).height = p.height ∧
    (playerStep cfg p).x = p.x ∧
    (playerStep cfg p).width = p.width ∧
    (playerStep cfg p).rotation = p.rotation + 0.15 := by
  obtain ⟨h1, h2⟩ := h
  simp only [playerStep, Player.update, ge_iff_le]
  rw [if_neg (not_le.mpr h1)]
  rw [if_neg (not_le.mpr h2)]
  exact ⟨rfl, rfl, rfl, rfl, rfl, rfl, rfl⟩

/-- C5: while no clamp fires, velocity after n ticks is v0 + n·g. -/
theorem airborne_velocity_linear (cfg : Config) (p : Player) (n : ℕ)
    (h : ∀ k < n, noClamp cfg ((playerStep cfg)^[k] p)) :
    ((playerStep cfg)^[n] p).velocityY = p.velocityY + n * GRAVITY := by
  induction n with
  | zero => simp
  | succ k ih =>
    rw [Function.iterate_succ_apply',
      (playerStep_of_noClamp cfg _ (h k (by omega))).1,
      ih (fun j hj => h j (by omega))]
    push_cast
    ring

/-- Witness for C5: one unclamped tick of a concrete airborne player adds
exactly one gravity increment. -/
theorem airborne_velocity_linear_witness :
    ((playerStep { CANVAS_WIDTH := 1200, CANVAS_HEIGHT := 800 })^[1]
        { x := 100, y := 300, width := 40, height := 40, velocityY := 0,
          onGround := false, rotation := 0, color := "", trail := Trail.init }).velocityY =
      0 + 1 * GRAVITY := by
  have h := airborne_velocity_linear { CANVAS_WIDTH := 1200, CANVAS_HEIGHT := 800 }
    { x := 100, y := 300, width := 40, height := 40, velocityY := 0,
      onGround := false, rotation := 0, color := "", trail := Trail.init } 1
    (by
      intro k hk
      interval_cases k
      norm_num [noClamp, GRAVITY, GROUND_HEIGHT])
  simpa using h

/-! ## Game speed formula and cap (C8) -/

/-- C8: after a Playing-state update, gameSpeed = min(5 + distance/500, 10),
strictly below 10 for distance below 2500 and equal to 10 from 2500 on. -/
theorem gameSpeed_formula_and_cap (cfg : Config) (r : GameRand) (g : Game)
    (h : g.state = GState.playing) :
    (Game.update cfg r g).gameSpeed =
      min (5 + (Game.update cfg r g).distance / 500) 10 ∧
    ((Game.update cfg r g).distance < 2500 → (Game.update cfg r g).gameSpeed < 10) ∧
    (2500 ≤ (Game.update cfg r g).distance → (Game.update cfg r g).gameSpeed = 10) := by
  have key : (Game.update cfg r g).distance = g.distance + g.gameSpeed * 0.1 ∧
      (Game.update cfg r g).gameSpeed =
        min (5 + (g.distance + g.gameSpeed * 0.1) / 500) 10 := by
    simp only [Game.update, h, ne_eq]
    rw [if_neg (by simp)]
    rw [if_neg (by rw [show (Player.update cfg g.player).2 = Signal.alive from rfl]; simp)]
    split
    · simp [Game.gameOver]
    · simp
  obtain ⟨hd, hs⟩ := key
  rw [hd, hs]
  refine ⟨rfl, fun hlt => ?_, fun hge => ?_⟩
  · have h5 : 5 + (g.distance + g.gameSpeed * 0.1) / 500 < 10 := by
      have hdiv : (g.distance + g.gameSpeed * 0.1) / 500 < 5 := by
        rw [div_lt_iff₀ (by norm_num : (0:ℚ) < 500)]
        linarith
      linarith
    exact lt_of_le_of_lt (min_le_left _ _) h5
  · have h5 : (10:ℚ) ≤ 5 + (g.distance + g.gameSpeed * 0.1) / 500 := by
      have hdiv : (5:ℚ) ≤ (g.distance + g.gameSpeed * 0.1) / 500 := by
        rw [le_div_iff₀ (by norm_num : (0:ℚ) < 500)]
        linarith
      linarith
    exact min_eq_right h5

/-- Witness for C8 at a freshly started concrete game. -/
theorem gameSpeed_formula_and_cap_witness :
    (Game.update { CANVAS_WIDTH := 1200, CANVAS_HEIGHT := 800 }
        { spawn := { gap := 1/2, tIdx := 0, airY := 1/2 },
          burst := { vx := fun _ => 1/2, vy := fun _ => 1/2, size := fun _ => 1/2 } }
        (Game.startGame { CANVAS_WIDTH := 1200, CANVAS_HEIGHT := 800 }
          (Game.init { CANVAS_WIDTH := 1200, CANVAS_HEIGHT := 800 } 0 0))).gameSpeed =
      min (5 +
        (Game.update { CANVAS_WIDTH := 1200, CANVAS_HEIGHT := 800 }
          { spawn := { gap := 1/2, tIdx := 0, airY := 1/2 },
            burst := { vx := fun _ => 1/2, vy := fun _ => 1/2, size := fun _ => 1/2 } }
          (Game.startGame { CANVAS_WIDTH := 1200, CANVAS_HEIGHT := 800 }
            (Game.init { CANVAS_WIDTH := 1200, CANVAS_HEIGHT := 800 } 0 0))).distance / 500)
        10 :=
  (gameSpeed_formula_and_cap _ _ _ rfl).1

/-! ## Obstacle spacing invariant (C1) -/

/-- Consecutive obstacles are at least 300 units apart. -/
def obstacleGap (a b : Obstacle) : Prop :=
  a.x + 300 ≤ b.x

instance : IsTrans Obstacle obstacleGap :=
  ⟨fun a b c hab hbc => by
    unfold obstacleGap at *
    linarith⟩

/-- The whole active list keeps the minimum spacing between neighbours. -/
def Spaced (l : List Obstacle) : Prop :=
  l.Chain' obstacleGap

/-- generateObstacle appends one obstacle at least 300 past the previous
last one, so it preserves the spacing invariant. -/
theorem generateObstacle_spaced (cfg : Config) (r : SpawnRand)
    (g : ObstacleGenerator) (h0 : 0 ≤ r.gap) (hs : Spaced g.obstacles) :
    Spaced (ObstacleGenerator.generateObstacle cfg r g).obstacles := by
  unfold Spaced at *
  simp only [ObstacleGenerator.generateObstacle]
  rw [List.chain'_append]
  refine ⟨hs, List.chain'_singleton _, ?_⟩
  intro a ha b hb
  simp only [List.head?_cons, Option.mem_def, Option.some.injEq] at hb
  rw [Option.mem_def] at ha
  subst hb
  simp only [ha]
  unfold obstacleGap
  simp only []
  nlinarith [h0]

/-- Scrolling all obstacles left by the same amount preserves spacing. -/
theorem moved_spaced (speed : ℚ) (l : List Obstacle) (hs : Spaced l) :
    Spaced (l.map fun o => { o with x := o.x - speed }) := by
  unfold Spaced at *
  rw [List.chain'_map]
  refine hs.imp ?_
  intro a b hab
  unfold obstacleGap at *
  simp only []
  linarith

/-- C1: one ObstacleGenerator.update step preserves the ≥300 spacing
invariant for any random draw; moreover each spawn next to a previous last
obstacle adds a gap within [300, 500], and a spawn into an empty set places
the obstacle at screen width + 200. -/
theorem obstacle_spacing (cfg : Config) (speed : ℚ) (r : SpawnRand)
    (g : ObstacleGenerator) (h0 : 0 ≤ r.gap) (h1 : r.gap < 1) :
    (Spaced g.obstacles →
      Spaced (ObstacleGenerator.update cfg speed r g).obstacles) ∧
    (∀ t : Obstacle, g.obstacles.getLast? = some t →
      ∃ o : Obstacle,
        (ObstacleGenerator.generateObstacle cfg r g).obstacles = g.obstacles ++ [o] ∧
        t.x + 300 ≤ o.x ∧ o.x ≤ t.x + 500) ∧
    (g.obstacles = [] →
      ∃ o : Obstacle,
        (ObstacleGenerator.generateObstacle cfg r g).obstacles = [o] ∧
        o.x = cfg.CANVAS_WIDTH + 200) := by
  refine ⟨fun hs => ?_, fun t ht => ?_, fun hnil => ?_⟩
  · simp only [ObstacleGenerator.update]
    have hkept : Spaced ((g.obstacles.map fun o => { o with x := o.x - speed }).filter
        fun o => o.x + o.width > -100) :=
      List.Chain'.sublist (moved_spaced speed g.obstacles hs) (List.filter_sublist _)
    split
    · exact generateObstacle_spaced cfg r _ h0 hkept
    · split
      · exact generateObstacle_spaced cfg r _ h0 hkept
      · exact hkept
  · refine ⟨_, rfl, ?_, ?_⟩
    · simp only [ObstacleGenerator.generateObstacle, ht]
      nlinarith [h0]
    · simp only [ObstacleGenerator.generateObstacle, ht]
      nlinarith [h1]
  · simp only [ObstacleGenerator.generateObstacle, hnil, List.getLast?_nil,
      List.nil_append]
    exact ⟨_, rfl, rfl⟩

/-- Witness for C1: the spacing invariant is preserved on a concrete
one-obstacle generator with gap draw 1/2. -/
theorem obstacle_spacing_witness :
    Spaced (ObstacleGenerator.update { CANVAS_WIDTH := 1200, CANVAS_HEIGHT := 800 } 5
        { gap := 1/2, tIdx := 0, airY := 1/2 }
        { obstacles :=
            [{ x := 1000, y := 640, width := 40, height := 60,
               type := "spike", color := "#02ff70ff", isAir := false }],
          nextObstacleX := 1000 }).obstacles :=
  (obstacle_spacing { CANVAS_WIDTH := 1200, CANVAS_HEIGHT := 800 } 5
      { gap := 1/2, tIdx := 0, airY := 1/2 } _ (by norm_num) (by norm_num)).1
    (List.chain'_singleton _)

/-! ## Score/distance invariant (C3) -/

/-- Game.update is the identity outside the Playing state. -/
theorem update_not_playing (cfg : Config) (r : GameRand) (g : Game)
    (h : g.state ≠ GState.playing) : Game.update cfg r g = g := by
  unfold Game.update
  rw [if_pos h]

/-- Distance, gameSpeed and score written by a Playing-state update step. -/
theorem update_playing_fields (cfg : Config) (r : GameRand) (g : Game)
    (h : g.state = GState.playing) :
    (Game.update cfg r g).distance = g.distance + g.gameSpeed * 0.1 ∧
    (Game.update cfg r g).gameSpeed =
      min (5 + (g.distance + g.gameSpeed * 0.1) / 500) 10 ∧
    (Game.update cfg r g).score = ⌊(g.distance + g.gameSpeed * 0.1) / 10⌋ := by
  simp only [Game.update, h, ne_eq]
  rw [if_neg (by simp)]
  rw [if_neg (by rw [show (Player.update cfg g.player).2 = Signal.alive from rfl]; simp)]
  split
  · simp [Game.gameOver]
  · simp

/-- The orchestrator invariant behind C3: the score/distance law plus the
bounds that keep distance growing. -/
def scoreInv (g : Game) : Prop :=
  g.score = ⌊g.distance / 10⌋ ∧ 0 ≤ g.distance ∧ 5 ≤ g.gameSpeed

/-- One update step preserves the invariant. -/
theorem update_scoreInv (cfg : Config) (r : GameRand) (g : Game)
    (h : scoreInv g) : scoreInv (Game.update cfg r g) := by
  obtain ⟨h1, h2, h3⟩ := h
  by_cases hst : g.state = GState.playing
  · obtain ⟨hd, hs, hsc⟩ := update_playing_fields cfg r g hst
    refine ⟨?_, ?_, ?_⟩
    · rw [hsc, hd]
    · rw [hd]
      linarith
    · rw [hs]
      refine le_min ?_ (by norm_num)
      have hq : (0:ℚ) ≤ (g.distance + g.gameSpeed * 0.1) / 500 := by positivity
      linarith
  · rw [update_not_playing cfg r g hst]
    exact ⟨h1, h2, h3⟩

/-- Every reachable orchestrator state satisfies the invariant. -/
theorem reachable_scoreInv (cfg : Config) (g : Game) (h : Reachable cfg g) :
    scoreInv g := by
  induction h with
  | init hs hd =>
    refine ⟨?_, le_refl 0, le_refl 5⟩
    norm_num [Game.init]
  | step_update r hprev ih => exact update_scoreInv cfg r _ ih
  | step_start hprev ih =>
    refine ⟨?_, le_refl 0, le_refl 5⟩
    norm_num [Game.startGame]
  | step_pause hprev ih =>
    obtain ⟨h1, h2, h3⟩ := ih
    unfold Game.pauseGame
    split
    · exact ⟨h1, h2, h3⟩
    · exact ⟨h1, h2, h3⟩
  | step_resume hprev ih =>
    obtain ⟨h1, h2, h3⟩ := ih
    unfold Game.resumeGame
    split
    · exact ⟨h1, h2, h3⟩
    · exact ⟨h1, h2, h3⟩
  | step_menu hprev ih =>
    obtain ⟨h1, h2, h3⟩ := ih
    exact ⟨h1, h2, h3⟩
  | step_jump hprev ih =>
    obtain ⟨h1, h2, h3⟩ := ih
    unfold Game.pressJump
    split
    · exact ⟨h1, h2, h3⟩
    · exact ⟨h1, h2, h3⟩

/-- C3: in every reachable state score = ⌊distance/10⌋, and across an update
step distance does not decrease while Playing and is unchanged otherwise. -/
theorem score_distance_invariant (cfg : Config) (g : Game)
    (h : Reachable cfg g) :
    g.score = ⌊g.distance / 10⌋ ∧
    (∀ r : GameRand, g.state = GState.playing →
      g.distance ≤ (Game.update cfg r g).distance) ∧
    (∀ r : GameRand, g.state ≠ GState.playing →
      (Game.update cfg r g).distance = g.distance) := by
  obtain ⟨h1, h2, h3⟩ := reachable_scoreInv cfg g h
  refine ⟨h1, fun r hst => ?_, fun r hst => ?_⟩
  · rw [(update_playing_fields cfg r g hst).1]
    linarith
  · rw [update_not_playing cfg r g hst]

/-- Witness for C3 at the freshly constructed game (state = menu). -/
theorem score_distance_invariant_witness :
    (Game.init { CANVAS_WIDTH := 1200, CANVAS_HEIGHT := 800 } 0 0).score =
      ⌊(Game.init { CANVAS_WIDTH := 1200, CANVAS_HEIGHT := 800 } 0 0).distance / 10⌋ ∧
    (Game.update { CANVAS_WIDTH := 1200, CANVAS_HEIGHT := 800 }
        { spawn := { gap := 1/2, tIdx := 0, airY := 1/2 },
          burst := { vx := fun _ => 1/2, vy := fun _ => 1/2, size := fun _ => 1/2 } }
        (Game.init { CANVAS_WIDTH := 1200, CANVAS_HEIGHT := 800 } 0 0)).distance =
      (Game.init { CANVAS_WIDTH := 1200, CANVAS_HEIGHT := 800 } 0 0).distance :=
  ⟨(score_distance_invariant _ _ (Reachable.init 0 0)).1,
   (score_distance_invariant _ _ (Reachable.init 0 0)).2.2 _ (by simp [Game.init])⟩

/-! ## Jump scenario (C4) -/

/-- Counterexample to C4 as stated: straight after reset() the player rests
on the ground line with zero velocity, but onGround is false, so a single
jump() call changes nothing and the velocity does not become the impulse. -/
theorem jump_after_reset_is_noop :
    (Player.init { CANVAS_WIDTH := 1200, CANVAS_HEIGHT := 800 }).y +
        (Player.init { CANVAS_WIDTH := 1200, CANVAS_HEIGHT := 800 }).height =
      800 - GROUND_HEIGHT ∧
    (Player.init { CANVAS_WIDTH := 1200, CANVAS_HEIGHT := 800 }).velocityY = 0 ∧
    (Player.init { CANVAS_WIDTH := 1200, CANVAS_HEIGHT := 800 }).onGround = false ∧
    (Player.init { CANVAS_WIDTH := 1200, CANVAS_HEIGHT := 800 }).jump =
      Player.init { CANVAS_WIDTH := 1200, CANVAS_HEIGHT := 800 } ∧
    ((Player.init { CANVAS_WIDTH := 1200, CANVAS_HEIGHT := 800 }).jump).velocityY ≠
      JUMP_FORCE := by
  refine ⟨?_, ?_, ?_, ?_, ?_⟩ <;>
    norm_num [Player.init, Player.reset, Player.jump, GROUND_HEIGHT, PLAYER_SIZE,
      JUMP_FORCE]

/-- One update() whose integrated position reaches the ground line: the
player is clamped onto the ground, velocity zeroed, onGround set, rotation
reset (provided the ground line sits above y = 0). -/
theorem playerStep_land (cfg : Config) (p : Player)
    (hg : cfg.CANVAS_HEIGHT - GROUND_HEIGHT ≤ p.y + (p.velocityY + GRAVITY) + p.height)
    (hc : 0 < cfg.CANVAS_HEIGHT - GROUND_HEIGHT - p.height) :
    (playerStep cfg p).y = cfg.CANVAS_HEIGHT - GROUND_HEIGHT - p.height ∧
    (playerStep cfg p).velocityY = 0 ∧
    (playerStep cfg p).onGround = true ∧
    (playerStep cfg p).rotation = 0 ∧
    (playerStep cfg p).x = p.x ∧
    (playerStep cfg p).height = p.height ∧
    (playerStep cfg p).width = p.width := by
  simp only [playerStep, Player.update, ge_iff_le]
  rw [if_pos hg]
  rw [if_neg (not_le.mpr hc)]
  exact ⟨rfl, rfl, rfl, rfl, rfl, rfl, rfl⟩

/-- Closed-form airborne trajectory over n unclamped ticks. -/
theorem airborne_closed_form (cfg : Config) (p : Player) (n : ℕ)
    (h : ∀ k < n, noClamp cfg ((playerStep cfg)^[k] p)) :
    ((playerStep cfg)^[n] p).y =
      p.y + n * p.velocityY + ((n : ℚ) * ((n : ℚ) + 1)) / 2 * GRAVITY ∧
    ((playerStep cfg)^[n] p).velocityY = p.velocityY + n * GRAVITY ∧
    ((playerStep cfg)^[n] p).height = p.height := by
  induction n with
  | zero => norm_num
  | succ k ih =>
    obtain ⟨hy, hv, hh⟩ := ih (fun j hj => h j (by omega))
    obtain ⟨sv, sy, -, sh, -, -, -⟩ := playerStep_of_noClamp cfg _ (h k (by omega))
    rw [Function.iterate_succ_apply', sv, sy, sh, hy, hv, hh]
    refine ⟨?_, ?_, rfl⟩ <;> push_cast <;> ring

/-- The jump arc from a player that sits at the landed height with the jump
impulse just applied: 36 unclamped ticks each add one gravity increment,
and the 37th tick lands on the ground line with rotation reset. -/
theorem jump_arc (cfg : Config) (hH : 300 ≤ cfg.CANVAS_HEIGHT) (pj : Player)
    (hpjv : pj.velocityY = JUMP_FORCE) (hpjy : pj.y = cfg.CANVAS_HEIGHT - 140)
    (hpjh : pj.height = 40) :
    (∀ n : ℕ, 1 ≤ n → n ≤ 36 →
      ((playerStep cfg)^[n] pj).velocityY = JUMP_FORCE + n * GRAVITY ∧
      ((playerStep cfg)^[n] pj).onGround = false) ∧
    ((playerStep cfg)^[37] pj).onGround = true ∧
    ((playerStep cfg)^[37] pj).rotation = 0 ∧
    ((playerStep cfg)^[37] pj).y + ((playerStep cfg)^[37] pj).height =
      cfg.CANVAS_HEIGHT - GROUND_HEIGHT := by
  have key : ∀ k : ℕ, k ≤ 36 → ∀ j, j < k →
      noClamp cfg ((playerStep cfg)^[j] pj) := by
    intro k
    induction k with
    | zero =>
      intro _ j hj
      omega
    | succ m ihm =>
      intro hm j hj
      have hm36 : m ≤ 36 := by omega
      rcases Nat.lt_succ_iff_lt_or_eq.mp hj with hj' | rfl
      · exact ihm hm36 j hj'
      · have hpre : ∀ i, i < j → noClamp cfg ((playerStep cfg)^[i] pj) :=
          fun i hi => ihm hm36 i hi
        obtain ⟨hy, hv, hh⟩ := airborne_closed_form cfg pj j (fun i hi => hpre i hi)
        have hjq : (j : ℚ) ≤ 35 := by
          have hj35 : j ≤ 35 := by omega
          exact_mod_cast hj35
        have hj0 : (0:ℚ) ≤ (j : ℚ) := by positivity
        unfold noClamp
        constructor
        · rw [hy, hv, hh, hpjy, hpjv, hpjh]
          simp only [JUMP_FORCE, GRAVITY, GROUND_HEIGHT]
          nlinarith [mul_nonneg hj0 (by linarith : (0:ℚ) ≤ 35 - (j:ℚ))]
        · rw [hy, hv, hpjy, hpjv]
          simp only [JUMP_FORCE, GRAVITY]
          nlinarith [sq_nonneg ((j:ℚ) - 69/4)]
  have conj4 : ∀ n : ℕ, 1 ≤ n → n ≤ 36 →
      ((playerStep cfg)^[n] pj).velocityY = JUMP_FORCE + n * GRAVITY ∧
      ((playerStep cfg)^[n] pj).onGround = false := by
    intro n h1n h36
    have hpre : ∀ k, k < n → noClamp cfg ((playerStep cfg)^[k] pj) :=
      fun k hk => key 36 le_rfl k (by omega)
    constructor
    · rw [(airborne_closed_form cfg pj n (fun k hk => hpre k hk)).2.1, hpjv]
    · obtain ⟨m, rfl⟩ : ∃ m, n = m + 1 := ⟨n - 1, by omega⟩
      rw [Function.iterate_succ_apply']
      exact (playerStep_of_noClamp cfg _ (hpre m (by omega))).2.2.1
  obtain ⟨hy36, hv36, hh36⟩ := airborne_closed_form cfg pj 36
    (fun k hk => key 36 le_rfl k hk)
  obtain ⟨ly, lv, lo, lr, lx, lh, lw⟩ := playerStep_land cfg ((playerStep cfg)^[36] pj)
    (by
      rw [hy36, hv36, hh36, hpjy, hpjv, hpjh]
      simp only [JUMP_FORCE, GRAVITY, GROUND_HEIGHT]
      push_cast
      linarith)
    (by
      rw [hh36, hpjh]
      simp only [GROUND_HEIGHT]
      linarith)
  have h37 : ((playerStep cfg)^[37] pj) = playerStep cfg ((playerStep cfg)^[36] pj) := by
    rw [show (37 : ℕ) = 36 + 1 from rfl, Function.iterate_succ_apply']
  refine ⟨conj4, ?_, ?_, ?_⟩
  · rw [h37]
    exact lo
  · rw [h37]
    exact lr
  · rw [h37, ly, lh, hh36, hpjh]
    ring

/-- C4 (amended: reset() leaves onGround false, so the scenario starts after
the one landing update that follows reset): the landed player's jump() sets
the impulse and clears onGround; each of the next 36 updates adds exactly
one gravity increment to the velocity while the player stays airborne; the
37th update puts the player's bottom edge back on the ground line with
onGround true and rotation 0. -/
theorem jump_scenario (cfg : Config) (hH : 300 ≤ cfg.CANVAS_HEIGHT) :
    (playerStep cfg (Player.init cfg)).onGround = true ∧
    ((playerStep cfg (Player.init cfg)).jump).velocityY = JUMP_FORCE ∧
    ((playerStep cfg (Player.init cfg)).jump).onGround = false ∧
    (∀ n : ℕ, 1 ≤ n → n ≤ 36 →
      ((playerStep cfg)^[n] ((playerStep cfg (Player.init cfg)).jump)).velocityY =
        JUMP_FORCE + n * GRAVITY ∧
      ((playerStep cfg)^[n] ((playerStep cfg (Player.init cfg)).jump)).onGround =
        false) ∧
    ((playerStep cfg)^[37] ((playerStep cfg (Player.init cfg)).jump)).onGround = true ∧
    ((playerStep cfg)^[37] ((playerStep cfg (Player.init cfg)).jump)).rotation = 0 ∧
    ((playerStep cfg)^[37] ((playerStep cfg (Player.init cfg)).jump)).y +
        ((playerStep cfg)^[37] ((playerStep cfg (Player.init cfg)).jump)).height =
      cfg.CANVAS_HEIGHT - GROUND_HEIGHT := by
  have hp0y : (Player.init cfg).y = cfg.CANVAS_HEIGHT - 140 := by
    norm_num [Player.init, Player.reset, GROUND_HEIGHT, PLAYER_SIZE]
    ring
  have hp0v : (Player.init cfg).velocityY = 0 := by
    norm_num [Player.init, Player.reset]
  have hp0h : (Player.init cfg).height = 40 := by
    norm_num [Player.init, Player.reset, PLAYER_SIZE]
  obtain ⟨l1y, l1v, l1o, l1r, l1x, l1h, l1w⟩ := playerStep_land cfg (Player.init cfg)
    (by rw [hp0y, hp0v, hp0h]; simp only [GRAVITY, GROUND_HEIGHT]; linarith)
    (by rw [hp0h]; simp only [GROUND_HEIGHT]; linarith)
  have hjump : (playerStep cfg (Player.init cfg)).jump =
      { playerStep cfg (Player.init cfg) with
        velocityY := JUMP_FORCE, onGround := false } := by
    unfold Player.jump
    rw [if_pos l1o]
  have hpjv : ((playerStep cfg (Player.init cfg)).jump).velocityY = JUMP_FORCE := by
    rw [hjump]
  have hpjo : ((playerStep cfg (Player.init cfg)).jump).onGround = false := by
    rw [hjump]
  have hpjy : ((playerStep cfg (Player.init cfg)).jump).y =
      cfg.CANVAS_HEIGHT - 140 := by
    rw [hjump]
    show (playerStep cfg (Player.init cfg)).y = _
    rw [l1y, hp0h]
    simp only [GROUND_HEIGHT]
    ring
  have hpjh : ((playerStep cfg (Player.init cfg)).jump).height = 40 := by
    rw [hjump]
    show (playerStep cfg (Player.init cfg)).height = _
    rw [l1h, hp0h]
  obtain ⟨harc1, harc2, harc3, harc4⟩ :=
    jump_arc cfg hH ((playerStep cfg (Player.init cfg)).jump) hpjv hpjy hpjh
  exact ⟨l1o, hpjv, hpjo, harc1, harc2, harc3, harc4⟩

/-- Witness for C4 at a concrete 1200×800 canvas. -/
theorem jump_scenario_witness :
    ((playerStep { CANVAS_WIDTH := 1200, CANVAS_HEIGHT := 800 }
        (Player.init { CANVAS_WIDTH := 1200, CANVAS_HEIGHT := 800 })).jump).velocityY =
      JUMP_FORCE ∧
    ((playerStep { CANVAS_WIDTH := 1200, CANVAS_HEIGHT := 800 })^[37]
        ((playerStep { CANVAS_WIDTH := 1200, CANVAS_HEIGHT := 800 }
          (Player.init { CANVAS_WIDTH := 1200, CANVAS_HEIGHT := 800 })).jump)).onGround =
      true :=
  ⟨(jump_scenario { CANVAS_WIDTH := 1200, CANVAS_HEIGHT := 800 } (by norm_num)).2.1,
   (jump_scenario { CANVAS_WIDTH := 1200, CANVAS_HEIGHT := 800 } (by norm_num)).2.2.2.2.1⟩
